import Mathlib

/-!
Verification of the netbox-demo-files repository scripts against their
specification.  The Python sources are shallowly embedded: JSON data is an
inductive type, the classifier and dispatch functions of
`ingest_transformed.py` become pure Lean functions, and the two NetBox
script flows (`create-device-ip.py`, `ip-select.py`) become functions from
an environment (the responses of the external platform) to a trace of
externally visible effects (saves and log lines).
-/

namespace NetboxDemo

/-! ## JSON values

A record read from a file is arbitrary JSON.  `obj` carries an association
list of fields; a Python dict has unique keys, and lookups return the first
binding.  -/

inductive Json where
  | null
  | bool (b : Bool)
  | num (n : Int)
  | str (s : String)
  | arr (xs : List Json)
  | obj (fields : List (String × Json))


/-- A raw record from a file: a JSON object, given by its field list. -/
abbrev RawRecord := List (String × Json)

/-- Python `d.get(k)`: returns the value or `None` when `d` is a dict, and
raises (`AttributeError`/`TypeError`) when the receiver is not a dict.
The raised-exception case is the `Except.error` branch. -/
def Json.getOpt : Json → String → Except String (Option Json)
  | .obj fields, k => .ok (fields.lookup k)
  | _, _ => .error "AttributeError: value has no attribute get"

/-- Lookup of a field on a JSON value, `none` when absent or not an object.
Used only in theorem statements, never by the embedded code. -/
def Json.objLookup : Json → String → Option Json
  | .obj fields, k => fields.lookup k
  | _, _ => none

namespace Diode

/-! ## Normalized entities (the Diode SDK ingester classes)

Only the fields the scripts set are modelled; every constructor argument
the script may omit defaults to `None` in the SDK, hence `Option`. -/

structure Manufacturer where
  name : Option Json


structure DeviceType where
  model : Option Json
  manufacturer : Option Manufacturer


structure DeviceRole where
  name : Option Json


structure Platform where
  name : Option Json
  manufacturer : Option Manufacturer


structure Site where
  name : Option Json
  status : Option Json
  description : Option Json


structure Device where
  name : Option Json
  device_type : Option DeviceType
  role : Option DeviceRole
  platform : Option Platform
  serial : Option Json
  site : Option Site
  status : Option Json
  description : Option Json
  comments : Option Json


structure PrefixEntity where
  value : Option Json


inductive Entity where
  | device (d : Device)
  | prefixE (p : PrefixEntity)
  | site (s : Site)


/-- One print statement of `create_diode_entities`, by shape. -/
inductive LogEvent where
  | createdDevice (name : Option Json)
  | skipInterface (name : Option Json)
  | skipIPAddress (addr : Option Json)
  | createdPrefixE (p : Option Json)
  | createdSite (name : Option Json)
  | skipVlan
  | unknownType (keys : List String)
  | errorCreating (msg : String)


/-! `build_device` of ingest_transformed.py, decomposed block by block.
A non-dict value anywhere a `.get`/`[...]` is applied raises inside the
per-record try block; every non-object sub-value ends in an exception
before an entity is produced, modelled uniformly by `Except.error`. -/

/-- `Manufacturer(name=m.get("name"))` for a manufacturer sub-value. -/
def build_manufacturer : Json → Except String Manufacturer
  | .obj mf => pure (Manufacturer.mk (mf.lookup "name"))
  | _ => Except.error "AttributeError"

/-- A sub-record present in the raw data is built from its value; an absent
one stays `None`. -/
def component {α : Type} (f : Json → Except String α) :
    Option Json → Except String (Option α)
  | some j => (f j).map some
  | none => pure none

/-- The `device_type` block of `build_device`. -/
def build_device_type : Json → Except String DeviceType
  | .obj dtf => do
    let manufacturer ← component build_manufacturer (dtf.lookup "manufacturer")
    pure (DeviceType.mk (dtf.lookup "model") manufacturer)
  | _ => Except.error "AttributeError"

/-- The `role` block of `build_device`. -/
def build_role : Json → Except String DeviceRole
  | .obj rf => pure (DeviceRole.mk (rf.lookup "name"))
  | _ => Except.error "AttributeError"

/-- The `platform` block of `build_device`. -/
def build_platform : Json → Except String Platform
  | .obj pf => do
    let plat_manufacturer ← component build_manufacturer (pf.lookup "manufacturer")
    pure (Platform.mk (pf.lookup "name") plat_manufacturer)
  | _ => Except.error "AttributeError"

/-- The `site` block of `build_device` (only the name is pulled through). -/
def build_site_sub : Json → Except String Site
  | .obj sf => pure (Site.mk (sf.lookup "name") none none)
  | _ => Except.error "AttributeError"

def build_device : Json → Except String Device
  | .obj dev => do
    let device_type ← component build_device_type (dev.lookup "device_type")
    let role ← component build_role (dev.lookup "role")
    let platform ← component build_platform (dev.lookup "platform")
    let site ← component build_site_sub (dev.lookup "site")
    pure { name := dev.lookup "name", device_type := device_type, role := role,
           platform := platform, serial := dev.lookup "serial", site := site,
           status := dev.lookup "status", description := dev.lookup "description",
           comments := dev.lookup "comments" }
  | _ => Except.error "TypeError"

/-! Well-shapedness: the sub-values that `build_device` dereferences are
objects wherever present.  Exactly the records on which the device branch
completes without raising. -/

/-- An optional sub-value that is dereferenced once: absent or an object. -/
def subOk : Option Json → Bool
  | none => true
  | some (Json.obj _) => true
  | some _ => false

/-- An optional sub-value whose own `manufacturer` is dereferenced too. -/
def nestedOk : Option Json → Bool
  | none => true
  | some (Json.obj fs) => subOk (fs.lookup "manufacturer")
  | some _ => false

/-- The device sub-record is an object and every nested sub-record that
`build_device` dereferences is an object where present. -/
def devWellShaped : Json → Bool
  | Json.obj fs =>
    nestedOk (fs.lookup "device_type") && subOk (fs.lookup "role") &&
    nestedOk (fs.lookup "platform") && subOk (fs.lookup "site")
  | _ => false

/-- Branches of the elif chain after the device case. -/
def classify_rest (raw : RawRecord) : Except String (Option Entity × List LogEvent) :=
  match raw.lookup "interface" with
  | some itf => do
      let nm ← itf.getOpt "name"
      pure (none, [LogEvent.skipInterface nm])
  | none =>
    match raw.lookup "ip_address" with
    | some ipv => do
        let a ← ipv.getOpt "address"
        pure (none, [LogEvent.skipIPAddress a])
    | none =>
      match raw.lookup "prefix" with
      | some pv => do
          let p ← pv.getOpt "prefix"
          pure (some (Entity.prefixE (PrefixEntity.mk p)), [LogEvent.createdPrefixE p])
      | none =>
        match raw.lookup "site" with
        | some sv => do
            let nm ← sv.getOpt "name"
            let st ← sv.getOpt "status"
            let ds ← sv.getOpt "description"
            pure (some (Entity.site (Site.mk nm st ds)), [LogEvent.createdSite nm])
        | none =>
          match raw.lookup "vlan" with
          | some _ => pure (none, [LogEvent.skipVlan])
          | none =>
            if raw.map Prod.fst = ["timestamp"] then pure (none, [])
            else
              let keys := (raw.map Prod.fst).filter (fun k => k ≠ "timestamp")
              if keys.isEmpty then pure (none, [])
              else pure (none, [LogEvent.unknownType keys])

/-- The body of the per-record try block of `create_diode_entities`:
`if "device" in raw and "interface" not in raw and "ip_address" not in raw`
then build a Device entity, else fall through the elif chain. -/
def classify_core (raw : RawRecord) : Except String (Option Entity × List LogEvent) :=
  match raw.lookup "device", raw.lookup "interface", raw.lookup "ip_address" with
  | some dev, none, none => do
      let d ← build_device dev
      let nm ← dev.getOpt "name"
      pure (some (Entity.device d), [LogEvent.createdDevice nm])
  | _, _, _ => classify_rest raw

/-- One loop iteration of `create_diode_entities`, with the
`except Exception` handler that logs and continues. -/
def classify_record (raw : RawRecord) : Option Entity × List LogEvent :=
  match classify_core raw with
  | .ok r => r
  | .error e => (none, [LogEvent.errorCreating e])

/-- `create_diode_entities`: entities appended in order, prints in order. -/
def create_diode_entities : List RawRecord → List Entity × List LogEvent
  | [] => ([], [])
  | r :: rest =>
    let (e, logs) := classify_record r
    let (es, ls) := create_diode_entities rest
    (e.toList ++ es, logs ++ ls)

/-! ## Submission (`ingest_to_diode`) and per-file dispatch (`process_file`)

The Diode client is external: the environment holds the outcome of the
one transport attempt (client construction plus `client.ingest`), an
`Except`: `ok` a response carrying the error list, `error` a raised
transport exception.  The outcome records how many clients were
constructed and which batches were sent over the network. -/

structure IngestResponse where
  errors : List String

structure DiodeEnv where
  ingest_result : Except String IngestResponse

structure IngestOutcome where
  success : Bool
  clientsConstructed : Nat
  calls : List (List Entity)
  loggedErrors : List String

def ingest_to_diode (env : DiodeEnv) (entities : List Entity) : IngestOutcome :=
  if entities.isEmpty then
    { success := true, clientsConstructed := 0, calls := [], loggedErrors := [] }
  else
    match env.ingest_result with
    | Except.ok resp =>
      if resp.errors.isEmpty then
        { success := true, clientsConstructed := 1, calls := [entities],
          loggedErrors := [] }
      else
        { success := false, clientsConstructed := 1, calls := [entities],
          loggedErrors := resp.errors.take 5 }
    | Except.error _ =>
      { success := false, clientsConstructed := 1, calls := [entities],
        loggedErrors := [] }

/-- `process_file`: parse (the `Except.error` branch is a raised parse
exception, caught by the outer handler), classify, submit, and move the
file to the processed directory exactly when submission succeeded.
Result: (returned success flag, whether the file was archived). -/
def process_file (env : DiodeEnv) (parsed : Except String (List RawRecord)) :
    Bool × Bool :=
  match parsed with
  | Except.error _ => (false, false)
  | Except.ok raws =>
    let out := ingest_to_diode env (create_diode_entities raws).1
    (out.success, out.success)

end Diode

/-! ## File discovery (`get_pending_files`) -/

structure FileEntry where
  name : String
  mtime : Nat

/-- A name matches the glob pattern `*.json`: `*` matches any run of
characters but a leading dot (hidden files are excluded by glob). -/
def matchesJsonGlob (name : String) : Bool :=
  name.endsWith ".json" && !name.startsWith "."

/-- The sort key of `files.sort(key=os.path.getmtime)`. -/
def mtimeLe (a b : FileEntry) : Bool := a.mtime ≤ b.mtime

/-- `get_pending_files`: glob the watch directory, then an in-place stable
sort keyed by modification time. -/
def get_pending_files (dir : List FileEntry) : List FileEntry :=
  (dir.filter (fun f => matchesJsonGlob f.name)).mergeSort mtimeLe

/-! ## Flow 1: `CreateDeviceAndAssignIP.run` (create-device-ip.py)

The external platform supplies: the pool query result
(`prefix.get_first_available_ip()`), the interface lookup on the new
device, and the primary key the platform assigns on save.  `run` returns
the trace of externally visible effects (saves and log lines, in order)
together with the returned summary string. -/

namespace CreateDeviceAndAssignIP

/-- An IP address value; its family (4 or 6) is intrinsic to the value. -/
structure IPValue where
  text : String
  family : Nat
deriving DecidableEq, Repr

structure InterfaceRec where
  name : String
  device_pk : Option Nat
deriving DecidableEq, Repr

structure DeviceRec where
  name : String
  site : String
  role : String
  device_type : String
  status : String
  primary_ip4 : Option IPValue := none
  primary_ip6 : Option IPValue := none
deriving DecidableEq, Repr

structure IPAddressRec where
  address : IPValue
  status : String
  assigned_object : Option InterfaceRec := none
deriving DecidableEq, Repr

structure RunData where
  device_name : String
  site : String
  device_role : String
  device_type : String
  device_status : String
  ip_status : String
  interface : Option InterfaceRec
deriving DecidableEq, Repr

structure Env where
  first_available_ip : Option IPValue
  iface_on_new_device : Option InterfaceRec
  new_device_pk : Nat
  prefix_label : String
deriving DecidableEq, Repr

inductive Eff where
  | deviceSaved (d : DeviceRec)
  | ipSaved (ip : IPAddressRec)
  | logSuccess (m : String)
  | logFailure (m : String)
  | logInfo (m : String)
  | logWarning (m : String)
deriving DecidableEq, Repr

/-- The device record built in step 1, before any primary IP is set. -/
def initialDevice (data : RunData) : DeviceRec :=
  { name := data.device_name, site := data.site, role := data.device_role,
    device_type := data.device_type, status := data.device_status }

/-- Step 3: resolve the target interface.  Filter on the new device by the
selected template name first; fall back to the selected interface itself
when it already belongs to the new device. -/
def resolve_target (env : Env) (data : RunData) : Option InterfaceRec :=
  match data.interface with
  | none => none
  | some sel =>
    match env.iface_on_new_device with
    | some t => some t
    | none =>
      if sel.device_pk = some env.new_device_pk then some sel else none

/-- Step 5: set the created address as the device primary for its family. -/
def withPrimary (d : DeviceRec) (ip : IPValue) : DeviceRec :=
  if ip.family = 4 then { d with primary_ip4 := some ip }
  else { d with primary_ip6 := some ip }

def run (env : Env) (data : RunData) : List Eff × Option String :=
  let device := initialDevice data
  let t1 := [Eff.deviceSaved device,
             Eff.logSuccess ("Created device **" ++ data.device_name ++ "**")]
  match env.first_available_ip with
  | none =>
    (t1 ++ [Eff.logFailure
        ("No available IP addresses in prefix **" ++ env.prefix_label ++ "**")],
     none)
  | some available_ip =>
    let t2 := t1 ++ [Eff.logInfo
        ("Next available IP in **" ++ env.prefix_label ++ "**: " ++
         available_ip.text)]
    let target_iface := resolve_target env data
    let t3 := t2 ++
      (match data.interface, target_iface with
       | some sel, none =>
         [Eff.logWarning
            ("Interface **" ++ sel.name ++ "** was not found on device **" ++
             data.device_name ++
             "**. The IP will be created without an interface assignment.")]
       | _, _ => [])
    let ip_address : IPAddressRec :=
      { address := available_ip, status := data.ip_status,
        assigned_object := target_iface }
    let t4 := t3 ++ [Eff.ipSaved ip_address] ++
      (match target_iface with
       | some t =>
         [Eff.logSuccess
            ("Created IP **" ++ available_ip.text ++
             "** and assigned to interface **" ++ t.name ++
             "** on device **" ++ data.device_name ++ "**")]
       | none =>
         [Eff.logSuccess
            ("Created IP **" ++ available_ip.text ++
             "** (no interface assignment)")])
    let summary := "Device " ++ data.device_name ++ " created with IP " ++
                   available_ip.text
    match target_iface with
    | some _ =>
      let device2 := withPrimary device available_ip
      (t4 ++ [Eff.deviceSaved device2,
              Eff.logInfo
                ("Set **" ++ available_ip.text ++ "** as the primary address" ++
                 " for device **" ++ data.device_name ++ "**")],
       some summary)
    | none => (t4, some summary)

/-- Recognizer for device-save effects (used to state frame conditions). -/
def Eff.isDeviceSaved : Eff → Bool
  | .deviceSaved _ => true
  | _ => false

end CreateDeviceAndAssignIP

/-! ## Flow 2: `AssignIPToInterface.run` (ip-select.py)

The platform supplies the interface lookup (`none` models the raised
`ObjectDoesNotExist`), the enabled-interface listing used in the
remediation hint, the addresses already assigned to the interface, and the
pool query result. -/

namespace AssignIPToInterface

structure Iface where
  name : String
  enabled : Bool
  iface_type : String
deriving DecidableEq, Repr

structure DeviceRef where
  name : String
  tenant : Option String
deriving DecidableEq, Repr

structure PrefixInfo where
  network : String
  prefixlen : Nat
  vrf : Option String
deriving DecidableEq, Repr

structure RunData where
  device : DeviceRef
  pool : PrefixInfo
  interface_name : String
deriving DecidableEq, Repr

structure Env where
  selected_interface : Option Iface
  enabled_interfaces : List Iface
  existing_ips : List String
  first_available_ip : Option String
deriving DecidableEq, Repr

structure IPRec where
  address : String
  vrf : Option String
  tenant : Option String
  status : String
  assigned_object : Option Iface
  description : String
deriving DecidableEq, Repr

inductive Eff where
  | ipSaved (ip : IPRec)
  | logSuccess (m : String)
  | logFailure (m : String)
  | logInfo (m : String)
  | logWarning (m : String)
deriving DecidableEq, Repr

def run (env : Env) (data : RunData) ( commit : Bool) :
    List Eff × Option String :=
  match env.selected_interface with
  | none =>
    ([Eff.logFailure
        ("Interface " ++ data.interface_name ++ " not found on device " ++
         data.device.name),
      Eff.logInfo ("Available interfaces on " ++ data.device.name ++ ":")] ++
     env.enabled_interfaces.map
       (fun i => Eff.logInfo ("  - " ++ i.name ++ " (" ++ i.iface_type ++ ")")),
     none)
  | some selected_interface =>
    let t1 :=
      if selected_interface.enabled then []
      else [Eff.logWarning
              ("Interface " ++ data.interface_name ++ " is disabled")]
    let t2 := t1 ++
      (if env.existing_ips.isEmpty then []
       else Eff.logWarning "Interface already has IP addresses:" ::
            env.existing_ips.map (fun a => Eff.logWarning ("  - " ++ a)))
    match env.first_available_ip with
    | none =>
      (t2 ++ [Eff.logFailure
          ("No available IPs in prefix " ++ data.pool.network)], none)
    | some next_ip =>
      let addr := next_ip ++ "/" ++ toString data.pool.prefixlen
      let ip_address : IPRec :=
        { address := addr, vrf := data.pool.vrf, tenant := data.device.tenant,
          status := "active", assigned_object := some selected_interface,
          description := "Auto-assigned to " ++ data.device.name ++ " - " ++
                         selected_interface.name }
      let t3 := t2 ++
        (if commit then
          [Eff.ipSaved ip_address,
           Eff.logSuccess
             ("Successfully assigned " ++ addr ++ " to " ++
              data.device.name ++ " - " ++ selected_interface.name)]
         else
          [Eff.logInfo
             ("[DRY RUN] Would assign " ++ addr ++ " to " ++
              data.device.name ++ " - " ++ selected_interface.name)])
      (t3, some ("IP " ++ addr ++ " assigned to interface " ++
                 selected_interface.name))

end AssignIPToInterface

/-! ## Concrete instances used to witness the theorems below -/

def rawDeviceW : RawRecord := [("device", Json.obj [("name", Json.str "sw1")])]

def respW : Diode.IngestResponse :=
  { errors := ["e1", "e2", "e3", "e4", "e5", "e6"] }

def envErrW : Diode.DiodeEnv := { ingest_result := Except.ok respW }

def rawsSiteW : List RawRecord := [[("site", Json.obj [("name", Json.str "HQ")])]]

def dataW1 : CreateDeviceAndAssignIP.RunData :=
  { device_name := "sw1", site := "HQ", device_role := "switch",
    device_type := "C9K", device_status := "planned", ip_status := "active",
    interface := none }

def envNoIPW : CreateDeviceAndAssignIP.Env :=
  { first_available_ip := none, iface_on_new_device := none,
    new_device_pk := 1, prefix_label := "10.0.0.0/24" }

def ipW : CreateDeviceAndAssignIP.IPValue := { text := "10.0.0.1/24", family := 4 }

def tW : CreateDeviceAndAssignIP.InterfaceRec := { name := "eth0", device_pk := some 1 }

def envIPW : CreateDeviceAndAssignIP.Env :=
  { first_available_ip := some ipW, iface_on_new_device := some tW,
    new_device_pk := 1, prefix_label := "10.0.0.0/24" }

def dataW2 : CreateDeviceAndAssignIP.RunData :=
  { device_name := "sw1", site := "HQ", device_role := "switch",
    device_type := "C9K", device_status := "planned", ip_status := "active",
    interface := some { name := "eth0", device_pk := none } }

def iprW : CreateDeviceAndAssignIP.IPAddressRec :=
  { address := ipW, status := "active", assigned_object := some tW }

def selW : AssignIPToInterface.Iface :=
  { name := "eth0", enabled := true, iface_type := "1000base-t" }

def envAIW : AssignIPToInterface.Env :=
  { selected_interface := some selW, enabled_interfaces := [],
    existing_ips := [], first_available_ip := some "10.0.0.5" }

def dataAIW : AssignIPToInterface.RunData :=
  { device := { name := "sw2", tenant := none },
    pool := { network := "10.0.0.0/24", prefixlen := 24, vrf := none },
    interface_name := "eth0" }

def ipaW : AssignIPToInterface.IPRec :=
  { address := "10.0.0.5/24", vrf := none, tenant := none, status := "active",
    assigned_object := some selW,
    description := "Auto-assigned to sw2 - eth0" }

/-! ## Helper lemmas -/

theorem component_ok {α : Type} (f : Json → Except String α) (o : Option Json)
    (h : ∀ j, o = some j → ∃ r, f j = Except.ok r) :
    ∃ r, Diode.component f o = Except.ok r := by
  cases o with
  | none => exact ⟨none, rfl⟩
  | some j =>
    obtain ⟨r, hr⟩ := h j rfl
    exact ⟨some r, by simp [Diode.component, hr, Except.map]⟩

theorem build_manufacturer_ok (m : Json) (h : Diode.subOk (some m) = true) :
    ∃ r, Diode.build_manufacturer m = Except.ok r := by
  cases m <;> first
    | exact ⟨_, rfl⟩
    | simp [Diode.subOk] at h

theorem build_device_type_ok (dt : Json) (h : Diode.nestedOk (some dt) = true) :
    ∃ r, Diode.build_device_type dt = Except.ok r := by
  cases dt <;> simp only [Diode.nestedOk, Bool.false_eq_true] at h
  case obj dtf =>
    obtain ⟨m, hm⟩ := component_ok Diode.build_manufacturer
      (dtf.lookup "manufacturer")
      (fun j hj => build_manufacturer_ok j (hj ▸ h))
    refine ⟨Diode.DeviceType.mk (dtf.lookup "model") m, ?_⟩
    simp [Diode.build_device_type, hm]

theorem build_platform_ok (pl : Json) (h : Diode.nestedOk (some pl) = true) :
    ∃ r, Diode.build_platform pl = Except.ok r := by
  cases pl <;> simp only [Diode.nestedOk, Bool.false_eq_true] at h
  case obj pf =>
    obtain ⟨m, hm⟩ := component_ok Diode.build_manufacturer
      (pf.lookup "manufacturer")
      (fun j hj => build_manufacturer_ok j (hj ▸ h))
    refine ⟨Diode.Platform.mk (pf.lookup "name") m, ?_⟩
    simp [Diode.build_platform, hm]

theorem build_role_ok (r : Json) (h : Diode.subOk (some r) = true) :
    ∃ d, Diode.build_role r = Except.ok d := by
  cases r <;> first
    | exact ⟨_, rfl⟩
    | simp [Diode.subOk] at h

theorem build_site_sub_ok (s : Json) (h : Diode.subOk (some s) = true) :
    ∃ d, Diode.build_site_sub s = Except.ok d := by
  cases s <;> first
    | exact ⟨_, rfl⟩
    | simp [Diode.subOk] at h

theorem build_device_ok (dev : Json) (h : Diode.devWellShaped dev = true) :
    ∃ d, Diode.build_device dev = Except.ok d := by
  cases dev <;> simp only [Diode.devWellShaped, Bool.and_eq_true, Bool.false_eq_true] at h
  case obj fs =>
    obtain ⟨⟨⟨h1, h2⟩, h3⟩, h4⟩ := h
    obtain ⟨dt, hdt⟩ := component_ok Diode.build_device_type
      (fs.lookup "device_type") (fun j hj => build_device_type_ok j (hj ▸ h1))
    obtain ⟨rl, hrl⟩ := component_ok Diode.build_role
      (fs.lookup "role") (fun j hj => build_role_ok j (hj ▸ h2))
    obtain ⟨pl, hpl⟩ := component_ok Diode.build_platform
      (fs.lookup "platform") (fun j hj => build_platform_ok j (hj ▸ h3))
    obtain ⟨st, hst⟩ := component_ok Diode.build_site_sub
      (fs.lookup "site") (fun j hj => build_site_sub_ok j (hj ▸ h4))
    refine ⟨{ name := fs.lookup "name", device_type := dt, role := rl,
              platform := pl, serial := fs.lookup "serial", site := st,
              status := fs.lookup "status",
              description := fs.lookup "description",
              comments := fs.lookup "comments" }, ?_⟩
    simp only [Diode.build_device, hdt, hrl, hpl, hst]
    rfl

/-! ## Claim theorems -/

/-- C2: submitting an empty entity list constructs no client, makes no
network call, and returns success. -/
theorem ingest_to_diode_empty_batch (env : Diode.DiodeEnv) :
    Diode.ingest_to_diode env [] =
      { success := true, clientsConstructed := 0, calls := [],
        loggedErrors := [] } := rfl

/-- C9: a raw record with no keys at all is skipped silently by the
classifier: no entity, no log line — although it is not a timestamp-only
record. -/
theorem classify_empty_record_silent :
    Diode.classify_record [] = (none, []) ∧
    ([] : RawRecord).map Prod.fst ≠ ["timestamp"] :=
  ⟨rfl, by simp⟩

/-- C4: discovery returns exactly the files matching the `*.json` glob in
the watch directory, sorted by modification time ascending, so files with
mtimes t1 < t2 < t3 appear (and are processed) in that order. -/
theorem get_pending_files_spec (dir : List FileEntry) :
    (get_pending_files dir).Perm
      (dir.filter (fun f => matchesJsonGlob f.name)) ∧
    (∀ f, f ∈ get_pending_files dir ↔
      f ∈ dir ∧ matchesJsonGlob f.name = true) ∧
    (get_pending_files dir).Pairwise (fun a b => a.mtime ≤ b.mtime) := by
  have hperm : (get_pending_files dir).Perm
      (dir.filter (fun f => matchesJsonGlob f.name)) := by
    unfold get_pending_files
    exact List.mergeSort_perm _ _
  refine ⟨hperm, ?_, ?_⟩
  · intro f
    rw [hperm.mem_iff]
    simp [List.mem_filter]
  · have h := @List.sorted_mergeSort FileEntry mtimeLe
      (fun a b c hab hbc => by
        simp only [mtimeLe, decide_eq_true_eq] at hab hbc ⊢
        omega)
      (fun a b => by
        simp only [mtimeLe, Bool.or_eq_true, decide_eq_true_eq]
        omega)
      (dir.filter (fun f => matchesJsonGlob f.name))
    unfold get_pending_files
    exact h.imp (fun hab => by simpa [mtimeLe] using hab)

/-- C1 (counterexample): a record whose `device` key holds a non-object
value contains a `device` key and neither `interface` nor `ip_address`,
yet the classifier produces no entity for it — the transform raises and
the handler logs an error instead. -/
theorem classify_device_nonobject_cex :
    List.lookup "device" ([("device", Json.num 5)] : RawRecord)
        = some (Json.num 5) ∧
    List.lookup "interface" ([("device", Json.num 5)] : RawRecord) = none ∧
    List.lookup "ip_address" ([("device", Json.num 5)] : RawRecord) = none ∧
    Diode.classify_record [("device", Json.num 5)] =
      (none, [Diode.LogEvent.errorCreating "TypeError"]) :=
  ⟨rfl, rfl, rfl, rfl⟩

/-- C1 (amended): the classifier decides each record's kind by key
presence with first-match-wins precedence — (1) `device` without
`interface`/`ip_address` yields a device entity provided the device value
and its dereferenced sub-records are objects; (2) `interface` (an object)
skips with a log of the interface name; (3) `ip_address` (an object)
skips; (4) `prefix` yields a prefix entity; (5) `site` yields a site
entity; (6) `vlan` skips; (7) a timestamp-only record is skipped
silently; (8) any other record warns naming its non-timestamp keys and
yields no entity.  (On a matched key holding a non-object value the
per-record handler logs an error and yields no entity instead.) -/
theorem classify_record_cases (raw : RawRecord) :
    (∀ dev, List.lookup "device" raw = some dev →
      List.lookup "interface" raw = none →
      List.lookup "ip_address" raw = none →
      Diode.devWellShaped dev = true →
      ∃ d, Diode.build_device dev = Except.ok d ∧
        Diode.classify_record raw =
          (some (Diode.Entity.device d),
           [Diode.LogEvent.createdDevice (dev.objLookup "name")])) ∧
    (∀ fs, List.lookup "interface" raw = some (Json.obj fs) →
      Diode.classify_record raw =
        (none, [Diode.LogEvent.skipInterface (List.lookup "name" fs)])) ∧
    (∀ fs, List.lookup "interface" raw = none →
      List.lookup "ip_address" raw = some (Json.obj fs) →
      Diode.classify_record raw =
        (none, [Diode.LogEvent.skipIPAddress (List.lookup "address" fs)])) ∧
    (∀ fs, List.lookup "device" raw = none →
      List.lookup "interface" raw = none →
      List.lookup "ip_address" raw = none →
      List.lookup "prefix" raw = some (Json.obj fs) →
      Diode.classify_record raw =
        (some (Diode.Entity.prefixE
           (Diode.PrefixEntity.mk (List.lookup "prefix" fs))),
         [Diode.LogEvent.createdPrefixE (List.lookup "prefix" fs)])) ∧
    (∀ fs, List.lookup "device" raw = none →
      List.lookup "interface" raw = none →
      List.lookup "ip_address" raw = none →
      List.lookup "prefix" raw = none →
      List.lookup "site" raw = some (Json.obj fs) →
      Diode.classify_record raw =
        (some (Diode.Entity.site
           (Diode.Site.mk (List.lookup "name" fs) (List.lookup "status" fs)
              (List.lookup "description" fs))),
         [Diode.LogEvent.createdSite (List.lookup "name" fs)])) ∧
    (∀ v, List.lookup "device" raw = none →
      List.lookup "interface" raw = none →
      List.lookup "ip_address" raw = none →
      List.lookup "prefix" raw = none →
      List.lookup "site" raw = none →
      List.lookup "vlan" raw = some v →
      Diode.classify_record raw = (none, [Diode.LogEvent.skipVlan])) ∧
    (raw.map Prod.fst = ["timestamp"] →
      Diode.classify_record raw = (none, [])) ∧
    (∀ ks, List.lookup "device" raw = none →
      List.lookup "interface" raw = none →
      List.lookup "ip_address" raw = none →
      List.lookup "prefix" raw = none →
      List.lookup "site" raw = none →
      List.lookup "vlan" raw = none →
      (raw.map Prod.fst).filter (fun k => k ≠ "timestamp") = ks → ks ≠ [] →
      Diode.classify_record raw =
        (none, [Diode.LogEvent.unknownType ks])) := by
  refine ⟨?_, ?_, ?_, ?_, ?_, ?_, ?_, ?_⟩
  · intro dev h1 h2 h3 hw
    obtain ⟨d, hd⟩ := build_device_ok dev hw
    obtain ⟨fs, rfl⟩ : ∃ fs, dev = Json.obj fs := by
      cases dev <;>
        simp only [Diode.devWellShaped, Bool.false_eq_true] at hw
      exact ⟨_, rfl⟩
    refine ⟨d, hd, ?_⟩
    simp [Diode.classify_record, Diode.classify_core, h1, h2, h3, hd,
      Json.getOpt, Json.objLookup, Bind.bind, Except.bind, Pure.pure,
      Except.pure]
  · intro fs h
    cases hdev : List.lookup "device" raw <;>
      cases hip : List.lookup "ip_address" raw <;>
        simp [Diode.classify_record, Diode.classify_core,
          Diode.classify_rest, hdev, hip, h, Json.getOpt]
  · intro fs h2 h3
    cases hdev : List.lookup "device" raw <;>
      simp [Diode.classify_record, Diode.classify_core,
        Diode.classify_rest, hdev, h2, h3, Json.getOpt]
  · intro fs h1 h2 h3 h4
    simp [Diode.classify_record, Diode.classify_core, Diode.classify_rest,
      h1, h2, h3, h4, Json.getOpt]
  · intro fs h1 h2 h3 h4 h5
    simp [Diode.classify_record, Diode.classify_core, Diode.classify_rest,
      h1, h2, h3, h4, h5, Json.getOpt, Bind.bind, Except.bind, Pure.pure,
      Except.pure]
  · intro v h1 h2 h3 h4 h5 h6
    simp [Diode.classify_record, Diode.classify_core, Diode.classify_rest,
      h1, h2, h3, h4, h5, h6, Pure.pure, Except.pure]
  · intro h
    cases raw with
    | nil => simp at h
    | cons p rest =>
      cases rest with
      | nil =>
        obtain ⟨k, v⟩ := p
        simp at h
        subst h
        rfl
      | cons q rest2 => simp at h
  · intro ks h1 h2 h3 h4 h5 h6 hflt hne
    subst hflt
    have hts : raw.map Prod.fst ≠ ["timestamp"] := by
      intro hmap
      rw [hmap] at hne
      simp at hne
    have hke : ¬ (((raw.map Prod.fst).filter
        (fun k => k ≠ "timestamp")).isEmpty = true) := by
      rcases hcc : (raw.map Prod.fst).filter (fun k => k ≠ "timestamp") with
        _ | ⟨a, l⟩
      · exact absurd hcc hne
      · simp
    simp only [Diode.classify_record, Diode.classify_core,
      Diode.classify_rest, h1, h2, h3, h4, h5, h6]
    rw [if_neg hts, if_neg hke]
    rfl

/-- C1 (witness): a one-key device record takes the device branch. -/
theorem classify_record_cases_witness :
    ∃ d, Diode.build_device (Json.obj [("name", Json.str "sw1")]) =
        Except.ok d ∧
      Diode.classify_record [("device", Json.obj [("name", Json.str "sw1")])] =
        (some (Diode.Entity.device d),
         [Diode.LogEvent.createdDevice
            ((Json.obj [("name", Json.str "sw1")]).objLookup "name")]) :=
  (classify_record_cases
      [("device", Json.obj [("name", Json.str "sw1")])]).1
    (Json.obj [("name", Json.str "sw1")]) rfl rfl rfl rfl

/-- C3: a non-empty batch whose response carries a non-empty error list
logs at most the first five errors and reports failure, so the file is not
archived (stays in the watch directory); a transport exception during
submission likewise reports failure for the batch. -/
theorem ingest_failure_semantics (env : Diode.DiodeEnv)
    (raws : List RawRecord)
    (hne : (Diode.create_diode_entities raws).1 ≠ []) :
    (∀ resp, env.ingest_result = Except.ok resp → resp.errors ≠ [] →
      (Diode.ingest_to_diode env
          (Diode.create_diode_entities raws).1).success = false ∧
      (Diode.ingest_to_diode env
          (Diode.create_diode_entities raws).1).loggedErrors
        = resp.errors.take 5 ∧
      (Diode.ingest_to_diode env
          (Diode.create_diode_entities raws).1).loggedErrors.length ≤ 5 ∧
      Diode.process_file env (Except.ok raws) = (false, false)) ∧
    (∀ e, env.ingest_result = Except.error e →
      (Diode.ingest_to_diode env
          (Diode.create_diode_entities raws).1).success = false ∧
      Diode.process_file env (Except.ok raws) = (false, false)) := by
  have hie : (Diode.create_diode_entities raws).1.isEmpty = false := by
    rcases hcc : (Diode.create_diode_entities raws).1 with _ | ⟨a, l⟩
    · exact absurd hcc hne
    · rfl
  constructor
  · intro resp hresp herr
    have heie : resp.errors.isEmpty = false := by
      rcases hcc : resp.errors with _ | ⟨a, l⟩
      · exact absurd hcc herr
      · rfl
    refine ⟨?_, ?_, ?_, ?_⟩
    · simp [Diode.ingest_to_diode, hie, hresp, heie]
    · simp [Diode.ingest_to_diode, hie, hresp, heie]
    · simp only [Diode.ingest_to_diode, hie, hresp, heie]
      simp [List.length_take]
    · simp [Diode.process_file, Diode.ingest_to_diode, hie, hresp, heie]
  · intro e herr
    constructor
    · simp [Diode.ingest_to_diode, hie, herr]
    · simp [Diode.process_file, Diode.ingest_to_diode, hie, herr]

/-- C3 (witness): a six-error response on a one-site-record file. -/
theorem ingest_failure_semantics_witness :
    (Diode.ingest_to_diode envErrW
        (Diode.create_diode_entities rawsSiteW).1).success = false ∧
    (Diode.ingest_to_diode envErrW
        (Diode.create_diode_entities rawsSiteW).1).loggedErrors
      = respW.errors.take 5 ∧
    (Diode.ingest_to_diode envErrW
        (Diode.create_diode_entities rawsSiteW).1).loggedErrors.length ≤ 5 ∧
    Diode.process_file envErrW (Except.ok rawsSiteW) = (false, false) :=
  (ingest_failure_semantics envErrW rawsSiteW
      (fun h => List.noConfusion h)).1 respW rfl
    (fun h => List.noConfusion h)

/-- C5: on pool exhaustion the device-and-address flow has created and
saved the device, saves no address record, logs a failure last, and
returns no summary. -/
theorem pool_exhaustion_outcome (env : CreateDeviceAndAssignIP.Env)
    (data : CreateDeviceAndAssignIP.RunData)
    (h : env.first_available_ip = none) :
    CreateDeviceAndAssignIP.Eff.deviceSaved
        (CreateDeviceAndAssignIP.initialDevice data)
      ∈ (CreateDeviceAndAssignIP.run env data).1 ∧
    (∀ ipr, CreateDeviceAndAssignIP.Eff.ipSaved ipr
      ∉ (CreateDeviceAndAssignIP.run env data).1) ∧
    (CreateDeviceAndAssignIP.run env data).1.getLast? =
      some (CreateDeviceAndAssignIP.Eff.logFailure
        ("No available IP addresses in prefix **" ++ env.prefix_label
          ++ "**")) ∧
    (CreateDeviceAndAssignIP.run env data).2 = none := by
  refine ⟨?_, ?_, ?_, ?_⟩ <;>
    simp [CreateDeviceAndAssignIP.run, h, List.getLast?]

/-- C5 (witness): a concrete run against an exhausted pool. -/
theorem pool_exhaustion_outcome_witness :
    CreateDeviceAndAssignIP.Eff.deviceSaved
        (CreateDeviceAndAssignIP.initialDevice dataW1)
      ∈ (CreateDeviceAndAssignIP.run envNoIPW dataW1).1 ∧
    (∀ ipr, CreateDeviceAndAssignIP.Eff.ipSaved ipr
      ∉ (CreateDeviceAndAssignIP.run envNoIPW dataW1).1) ∧
    (CreateDeviceAndAssignIP.run envNoIPW dataW1).1.getLast? =
      some (CreateDeviceAndAssignIP.Eff.logFailure
        ("No available IP addresses in prefix **" ++ envNoIPW.prefix_label
          ++ "**")) ∧
    (CreateDeviceAndAssignIP.run envNoIPW dataW1).2 = none :=
  pool_exhaustion_outcome envNoIPW dataW1 rfl

/-- C6: in both provisioning flows an address record is saved in a run
only when the pool next-available-address query returned a value in that
run. -/
theorem ip_saved_requires_pool
    (env1 : CreateDeviceAndAssignIP.Env)
    (data1 : CreateDeviceAndAssignIP.RunData)
    (env2 : AssignIPToInterface.Env) (data2 : AssignIPToInterface.RunData)
    ( commit : Bool) :
    (∀ ipr, CreateDeviceAndAssignIP.Eff.ipSaved ipr
        ∈ (CreateDeviceAndAssignIP.run env1 data1).1 →
      env1.first_available_ip.isSome = true) ∧
    (∀ ipr, AssignIPToInterface.Eff.ipSaved ipr
        ∈ (AssignIPToInterface.run env2 data2 commit).1 →
      env2.first_available_ip.isSome = true) := by
  constructor
  · intro ipr hmem
    cases h1 : env1.first_available_ip with
    | some ip => rfl
    | none => simp [CreateDeviceAndAssignIP.run, h1] at hmem
  · intro ipr hmem
    cases h2 : env2.first_available_ip with
    | some ip => rfl
    | none =>
      cases hsel : env2.selected_interface with
      | none => simp [AssignIPToInterface.run, hsel] at hmem
      | some sel =>
        by_cases he : sel.enabled = true <;>
          by_cases hex : env2.existing_ips.isEmpty = true <;>
            simp [AssignIPToInterface.run, hsel, h2, he, hex] at hmem

/-- C6 (witness): concrete runs in which an address record is saved. -/
theorem ip_saved_requires_pool_witness :
    envIPW.first_available_ip.isSome = true ∧
    envAIW.first_available_ip.isSome = true :=
  ⟨(ip_saved_requires_pool envIPW dataW2 envAIW dataAIW true).1 iprW
      (by decide),
   (ip_saved_requires_pool envIPW dataW2 envAIW dataAIW true).2 ipaW
      (by decide)⟩

/-- C7: when the created address is linked to an interface the device is
re-saved with the address as its primary for the address family (family 4
sets primary_ip4, any other family sets primary_ip6); with no link the
device is saved exactly once, with both primaries unset. -/
theorem primary_ip_update (env : CreateDeviceAndAssignIP.Env)
    (data : CreateDeviceAndAssignIP.RunData)
    (ip : CreateDeviceAndAssignIP.IPValue)
    (h : env.first_available_ip = some ip) :
    (∀ t, CreateDeviceAndAssignIP.resolve_target env data = some t →
      (CreateDeviceAndAssignIP.run env data).1.filter
          CreateDeviceAndAssignIP.Eff.isDeviceSaved =
        [CreateDeviceAndAssignIP.Eff.deviceSaved
           (CreateDeviceAndAssignIP.initialDevice data),
         CreateDeviceAndAssignIP.Eff.deviceSaved
           (if ip.family = 4 then
             { CreateDeviceAndAssignIP.initialDevice data with
                 primary_ip4 := some ip }
            else
             { CreateDeviceAndAssignIP.initialDevice data with
                 primary_ip6 := some ip })]) ∧
    (CreateDeviceAndAssignIP.resolve_target env data = none →
      (CreateDeviceAndAssignIP.run env data).1.filter
          CreateDeviceAndAssignIP.Eff.isDeviceSaved =
        [CreateDeviceAndAssignIP.Eff.deviceSaved
           (CreateDeviceAndAssignIP.initialDevice data)]) ∧
    (CreateDeviceAndAssignIP.initialDevice data).primary_ip4 = none ∧
    (CreateDeviceAndAssignIP.initialDevice data).primary_ip6 = none := by
  refine ⟨?_, ?_, rfl, rfl⟩
  · intro t ht
    cases hsel : data.interface with
    | none => simp [CreateDeviceAndAssignIP.resolve_target, hsel] at ht
    | some sel =>
      simp [CreateDeviceAndAssignIP.run, h, ht, hsel,
        CreateDeviceAndAssignIP.withPrimary,
        CreateDeviceAndAssignIP.Eff.isDeviceSaved, List.filter_cons]
  · intro ht
    cases hsel : data.interface with
    | none =>
      simp [CreateDeviceAndAssignIP.run, h, ht, hsel,
        CreateDeviceAndAssignIP.Eff.isDeviceSaved, List.filter_cons]
    | some sel =>
      simp [CreateDeviceAndAssignIP.run, h, ht, hsel,
        CreateDeviceAndAssignIP.Eff.isDeviceSaved, List.filter_cons]

/-- C7 (witness): a concrete linked run updating primary_ip4. -/
theorem primary_ip_update_witness :
    (CreateDeviceAndAssignIP.run envIPW dataW2).1.filter
        CreateDeviceAndAssignIP.Eff.isDeviceSaved =
      [CreateDeviceAndAssignIP.Eff.deviceSaved
         (CreateDeviceAndAssignIP.initialDevice dataW2),
       CreateDeviceAndAssignIP.Eff.deviceSaved
         (if ipW.family = 4 then
           { CreateDeviceAndAssignIP.initialDevice dataW2 with
               primary_ip4 := some ipW }
          else
           { CreateDeviceAndAssignIP.initialDevice dataW2 with
               primary_ip6 := some ipW })] :=
  (primary_ip_update envIPW dataW2 ipW rfl).1 tW rfl

/-- C8: with the commit flag true the constructed address record is saved
and a success message logged; with it false nothing is persisted (no save
effect occurs at all) and a dry-run preview is logged instead. -/
theorem commit_flag_semantics (env : AssignIPToInterface.Env)
    (data : AssignIPToInterface.RunData)
    (sel : AssignIPToInterface.Iface) (nip : String)
    (hsel : env.selected_interface = some sel)
    (hip : env.first_available_ip = some nip) :
    (AssignIPToInterface.run env data true).1 =
      ((if sel.enabled then []
        else [AssignIPToInterface.Eff.logWarning
               ("Interface " ++ data.interface_name ++ " is disabled")]) ++
       (if env.existing_ips.isEmpty then []
        else AssignIPToInterface.Eff.logWarning
               "Interface already has IP addresses:" ::
             env.existing_ips.map
               (fun a => AssignIPToInterface.Eff.logWarning ("  - " ++ a)))) ++
      [AssignIPToInterface.Eff.ipSaved
         { address := nip ++ "/" ++ toString data.pool.prefixlen,
           vrf := data.pool.vrf, tenant := data.device.tenant,
           status := "active", assigned_object := some sel,
           description := "Auto-assigned to " ++ data.device.name ++ " - " ++
             sel.name },
       AssignIPToInterface.Eff.logSuccess
         ("Successfully assigned " ++
          (nip ++ "/" ++ toString data.pool.prefixlen) ++ " to " ++
          data.device.name ++ " - " ++ sel.name)] ∧
    (AssignIPToInterface.run env data false).1 =
      ((if sel.enabled then []
        else [AssignIPToInterface.Eff.logWarning
               ("Interface " ++ data.interface_name ++ " is disabled")]) ++
       (if env.existing_ips.isEmpty then []
        else AssignIPToInterface.Eff.logWarning
               "Interface already has IP addresses:" ::
             env.existing_ips.map
               (fun a => AssignIPToInterface.Eff.logWarning ("  - " ++ a)))) ++
      [AssignIPToInterface.Eff.logInfo
         ("[DRY RUN] Would assign " ++
          (nip ++ "/" ++ toString data.pool.prefixlen) ++ " to " ++
          data.device.name ++ " - " ++ sel.name)] ∧
    (∀ x, AssignIPToInterface.Eff.ipSaved x ∉
      (AssignIPToInterface.run env data false).1) := by
  refine ⟨?_, ?_, ?_⟩
  · simp [AssignIPToInterface.run, hsel, hip]
  · simp [AssignIPToInterface.run, hsel, hip]
  · intro x
    by_cases he : sel.enabled = true <;>
      by_cases hex : env.existing_ips.isEmpty = true <;>
        simp [AssignIPToInterface.run, hsel, hip, he, hex]

/-- C8 (witness): a concrete commit/dry-run pair. -/
theorem commit_flag_semantics_witness :
    (AssignIPToInterface.run envAIW dataAIW true).1 =
      ((if selW.enabled then []
        else [AssignIPToInterface.Eff.logWarning
               ("Interface " ++ dataAIW.interface_name ++ " is disabled")]) ++
       (if envAIW.existing_ips.isEmpty then []
        else AssignIPToInterface.Eff.logWarning
               "Interface already has IP addresses:" ::
             envAIW.existing_ips.map
               (fun a => AssignIPToInterface.Eff.logWarning ("  - " ++ a)))) ++
      [AssignIPToInterface.Eff.ipSaved
         { address := "10.0.0.5" ++ "/" ++ toString dataAIW.pool.prefixlen,
           vrf := dataAIW.pool.vrf, tenant := dataAIW.device.tenant,
           status := "active", assigned_object := some selW,
           description := "Auto-assigned to " ++ dataAIW.device.name ++
             " - " ++ selW.name },
       AssignIPToInterface.Eff.logSuccess
         ("Successfully assigned " ++
          ("10.0.0.5" ++ "/" ++ toString dataAIW.pool.prefixlen) ++ " to " ++
          dataAIW.device.name ++ " - " ++ selW.name)] ∧
    (AssignIPToInterface.run envAIW dataAIW false).1 =
      ((if selW.enabled then []
        else [AssignIPToInterface.Eff.logWarning
               ("Interface " ++ dataAIW.interface_name ++ " is disabled")]) ++
       (if envAIW.existing_ips.isEmpty then []
        else AssignIPToInterface.Eff.logWarning
               "Interface already has IP addresses:" ::
             envAIW.existing_ips.map
               (fun a => AssignIPToInterface.Eff.logWarning ("  - " ++ a)))) ++
      [AssignIPToInterface.Eff.logInfo
         ("[DRY RUN] Would assign " ++
          ("10.0.0.5" ++ "/" ++ toString dataAIW.pool.prefixlen) ++ " to " ++
          dataAIW.device.name ++ " - " ++ selW.name)] ∧
    (∀ x, AssignIPToInterface.Eff.ipSaved x ∉
      (AssignIPToInterface.run envAIW dataAIW false).1) :=
  commit_flag_semantics envAIW dataAIW selW "10.0.0.5" rfl rfl

/-- C10: the returned summary string does not depend on the commit flag,
and in the completed case it reads as an assignment statement even on a
dry run. -/
theorem summary_ignores_commit (env : AssignIPToInterface.Env)
    (data : AssignIPToInterface.RunData) :
    (AssignIPToInterface.run env data true).2 =
      (AssignIPToInterface.run env data false).2 ∧
    (∀ sel nip, env.selected_interface = some sel →
      env.first_available_ip = some nip →
      (AssignIPToInterface.run env data false).2 =
        some ("IP " ++ (nip ++ "/" ++ toString data.pool.prefixlen) ++
              " assigned to interface " ++ sel.name)) := by
  constructor
  · cases hsel : env.selected_interface with
    | none => simp [AssignIPToInterface.run, hsel]
    | some sel =>
      cases hip : env.first_available_ip with
      | none => simp [AssignIPToInterface.run, hsel, hip]
      | some nip => simp [AssignIPToInterface.run, hsel, hip]
  · intro sel nip hsel hip
    simp [AssignIPToInterface.run, hsel, hip]

/-- C10 (witness): the dry-run summary of a concrete completed run. -/
theorem summary_ignores_commit_witness :
    (AssignIPToInterface.run envAIW dataAIW false).2 =
      some ("IP " ++ ("10.0.0.5" ++ "/" ++ toString dataAIW.pool.prefixlen) ++
            " assigned to interface " ++ selW.name) :=
  (summary_ignores_commit envAIW dataAIW).2 selW "10.0.0.5" rfl rfl

end NetboxDemo
